import Mathlib

/-!
# AnonBoard: ledger contract and client sync layer, shallowly embedded

The ledger side embeds the Solidity contract `AnonBoard` (file `AnonBoard.sol`):
state variables `nextPostId`, `nextCommentId`, the `posts`, `comments` and
`hasLiked` mappings, and the operations `createPost`, `addComment`,
`toggleLike`, `getComments`, `getTotalPosts`.  Solidity `mapping`s are total
functions returning the zero value on unassigned keys; the inner
`mapping(address => bool)` of `hasLiked` is represented extensionally by the
finite set of addresses currently mapped to `true`.  `uint256` arithmetic is
checked in Solidity 0.8, so `likes -= 1`, `likes += 1` and the id increments
revert on under/overflow; those reverts are the `panicArith` error below.
`block.timestamp` and `msg.sender` are passed as explicit arguments.

The client side embeds the relevant functions of `BlockchainContext.tsx`
(`createPost`/`addComment` validation, `getPost`, `getAllPosts`) and of the
`Home` page handlers (the optimistic update and revert of `handleCreatePost`,
the optimistic update of `handleToggleLike`).
-/

namespace AnonBoard

/-- Ethereum addresses are 160-bit words. -/
abbrev Addr : Type := Fin (2 ^ 160)

/-- Largest `uint256` value; checked arithmetic reverts past it. -/
def U256MAX : Nat := 2 ^ 256 - 1

/-- The contract's `struct Post`. -/
structure Post where
  id : Nat
  author : Addr
  content : String
  likes : Nat
  timestamp : Nat
  commentIds : List Nat
deriving DecidableEq

/-- The contract's `struct Comment`. -/
structure Comment where
  id : Nat
  postId : Nat
  author : Addr
  content : String
  timestamp : Nat
deriving DecidableEq

/-- Zero value of `struct Post`, what `posts[i]` holds for an unassigned `i`. -/
def defaultPost : Post :=
  { id := 0, author := 0, content := "", likes := 0, timestamp := 0, commentIds := [] }

/-- Zero value of `struct Comment`. -/
def defaultComment : Comment :=
  { id := 0, postId := 0, author := 0, content := "", timestamp := 0 }

/-- Assignment `posts[p].likes = n` (the other fields kept). -/
def Post.setLikes (p : Post) (n : Nat) : Post :=
  { p with likes := n }

/-- Statement `posts[p].commentIds.push(i)`. -/
def Post.pushCommentId (p : Post) (i : Nat) : Post :=
  { p with commentIds := p.commentIds ++ [i] }

/-- The contract's storage: `nextPostId`, `nextCommentId`, and the three
mappings.  `hasLiked p` is the set of addresses `a` with
`hasLiked[p][a] == true`. -/
structure Storage where
  nextPostId : Nat
  nextCommentId : Nat
  posts : Nat → Post
  comments : Nat → Comment
  hasLiked : Nat → Finset Addr

/-- Storage right after deployment: counters zero, all mappings at their
zero values. -/
def initial : Storage :=
  { nextPostId := 0, nextCommentId := 0,
    posts := fun _ => defaultPost, comments := fun _ => defaultComment,
    hasLiked := fun _ => ∅ }

/-- Why a call reverts: a failed `require` with a not-found or emptiness
message, or a checked-arithmetic panic. -/
inductive Error where
  | notFound
  | validation
  | panicArith
deriving DecidableEq

/-- Storage after the body of `createPost` runs: the new `Post` is stored at
`nextPostId` with zero likes and no comments, and `nextPostId` is
incremented. -/
def createPostOk (s : Storage) (sender : Addr) (content : String) (ts : Nat) : Storage :=
  { s with
    nextPostId := s.nextPostId + 1,
    posts := fun i =>
      if i = s.nextPostId then
        { id := s.nextPostId, author := sender, content := content,
          likes := 0, timestamp := ts, commentIds := [] }
      else s.posts i }

/-- Function `createPost(_content)`: reverts with `"Content cannot be empty"` when
`bytes(_content).length == 0`, i.e. when the content is the empty string;
the `nextPostId++` is checked arithmetic.  The id recorded in the
`PostCreated` event (the old `nextPostId`) is returned alongside the new
storage. -/
def createPost (s : Storage) (sender : Addr) (content : String) (ts : Nat) :
    Except Error (Storage × Nat) :=
  if content = "" then .error .validation
  else if s.nextPostId = U256MAX then .error .panicArith
  else .ok (createPostOk s sender content ts, s.nextPostId)

/-- Storage after the body of `addComment` runs: the new `Comment` is stored
at `nextCommentId`, its id is pushed onto the parent post's `commentIds`,
and `nextCommentId` is incremented. -/
def addCommentOk (s : Storage) (sender : Addr) (postId : Nat) (content : String) (ts : Nat) :
    Storage :=
  { s with
    nextCommentId := s.nextCommentId + 1,
    posts := fun i =>
      if i = postId then (s.posts i).pushCommentId s.nextCommentId else s.posts i,
    comments := fun j =>
      if j = s.nextCommentId then
        { id := s.nextCommentId, postId := postId, author := sender,
          content := content, timestamp := ts }
      else s.comments j }

/-- Function `addComment(_postId, _content)`: requires `_postId < nextPostId` and a
non-empty content, then appends; returns the new comment's id (carried by
the `CommentAdded` event). -/
def addComment (s : Storage) (sender : Addr) (postId : Nat) (content : String) (ts : Nat) :
    Except Error (Storage × Nat) :=
  if postId < s.nextPostId then
    if content = "" then .error .validation
    else if s.nextCommentId = U256MAX then .error .panicArith
    else .ok (addCommentOk s sender postId content ts, s.nextCommentId)
  else .error .notFound

/-- Storage after the unlike branch of `toggleLike`: the sender's like record
is cleared and `likes` decremented. -/
def unlikeOk (s : Storage) (sender : Addr) (p : Nat) : Storage :=
  { s with
    posts := fun i =>
      if i = p then (s.posts i).setLikes ((s.posts i).likes - 1) else s.posts i,
    hasLiked := fun i =>
      if i = p then (s.hasLiked i).erase sender else s.hasLiked i }

/-- Storage after the like branch of `toggleLike`: the sender's like record
is set and `likes` incremented. -/
def likeOk (s : Storage) (sender : Addr) (p : Nat) : Storage :=
  { s with
    posts := fun i =>
      if i = p then (s.posts i).setLikes ((s.posts i).likes + 1) else s.posts i,
    hasLiked := fun i =>
      if i = p then insert sender (s.hasLiked i) else s.hasLiked i }

/-- Function `toggleLike(_postId)`: requires `_postId < nextPostId`, then flips
`hasLiked[_postId][msg.sender]` and adjusts `likes` by one in the same
transaction; `likes -= 1` / `likes += 1` are checked.  The contract exposes
the resulting state through the emitted `PostUnliked` / `PostLiked` event and
the updated public `posts` / `hasLiked` fields; that observable outcome -- the
new liked flag and the new like count -- is returned here alongside the new
storage. -/
def toggleLike (s : Storage) (sender : Addr) (p : Nat) :
    Except Error (Storage × Bool × Nat) :=
  if p < s.nextPostId then
    if sender ∈ s.hasLiked p then
      if (s.posts p).likes = 0 then .error .panicArith
      else .ok (unlikeOk s sender p, false, (s.posts p).likes - 1)
    else
      if (s.posts p).likes = U256MAX then .error .panicArith
      else .ok (likeOk s sender p, true, (s.posts p).likes + 1)
  else .error .notFound

/-- Function `getComments(_postId)`: requires `_postId < nextPostId`, then resolves
the post's `commentIds` through the `comments` mapping, in order. -/
def getComments (s : Storage) (p : Nat) : Except Error (List Comment) :=
  if p < s.nextPostId then .ok ((s.posts p).commentIds.map s.comments)
  else .error .notFound

/-- Function `getTotalPosts()`: returns `nextPostId`. -/
def getTotalPosts (s : Storage) : Nat :=
  s.nextPostId

/-- Read of the public `posts` mapping (the auto-generated getter; it never
reverts, returning the zero `Post` for unassigned ids). -/
def getPost (s : Storage) (i : Nat) : Post :=
  s.posts i

/-- Ledger states reachable from deployment by successful mutating calls. -/
inductive Reachable : Storage → Prop where
  | init : Reachable initial
  | createPost {s s' : Storage} {a : Addr} {c : String} {t pid : Nat} :
      Reachable s → createPost s a c t = .ok (s', pid) → Reachable s'
  | addComment {s s' : Storage} {a : Addr} {p : Nat} {c : String} {t cid : Nat} :
      Reachable s → addComment s a p c t = .ok (s', cid) → Reachable s'
  | toggleLike {s s' : Storage} {a : Addr} {p : Nat} {r : Bool × Nat} :
      Reachable s → toggleLike s a p = .ok (s', r) → Reachable s'

/-- JavaScript `String.prototype.trim()`: whitespace dropped from both ends.
(Lean's own `String.trim` is not kernel-reducible, so the same operation is
written here over the character list.) -/
def jsTrim (s : String) : String :=
  ⟨((s.data.dropWhile Char.isWhitespace).reverse.dropWhile Char.isWhitespace).reverse⟩

namespace Client

/-- The client's `Post` type (`BlockchainContext.tsx`).  `getPost` builds it
without the optional `comments` field (`none` here); the optimistic post of
`handleCreatePost` carries an empty comment list (`some []`). -/
structure Post where
  id : Nat
  author : Addr
  content : String
  likes : Nat
  timestamp : Nat
  comments : Option (List Comment)
deriving DecidableEq

/-- Client `getPost(postId)`: reads the public `posts(uint256)` getter and
repackages the five returned fields.  The mapping getter never reverts, so
(transport failures aside, which are not modelled) the result is always
present -- for an unassigned id it is the zero `Post`. -/
def getPost (s : Storage) (i : Nat) : Option Post :=
  some { id := (AnonBoard.getPost s i).id, author := (AnonBoard.getPost s i).author,
         content := (AnonBoard.getPost s i).content, likes := (AnonBoard.getPost s i).likes,
         timestamp := (AnonBoard.getPost s i).timestamp, comments := none }

/-- The comparison JS passes to `Array.prototype.sort`:
`(a, b) => b.timestamp - a.timestamp`, i.e. larger timestamps first.
`sort` is stable, which `List.mergeSort` matches. -/
def byTimestampDesc (a b : Post) : Bool :=
  decide (b.timestamp ≤ a.timestamp)

/-- Client `getAllPosts()`: returns `[]` when `totalPosts` is zero (or
unavailable); otherwise fetches ids `1 .. total` (the loop is
`for (let i = 1; i <= total; i++)`), keeps the non-null results, and sorts
them by timestamp descending. -/
def getAllPosts (s : Storage) : List Post :=
  if getTotalPosts s = 0 then []
  else
    ((((List.range (getTotalPosts s)).map fun k => getPost s (k + 1)).filterMap id).mergeSort
      byTimestampDesc)

/-- Validation prefix of the client `createPost` before any transaction is
prepared: contract present, wallet connected, `content.trim()` non-empty. -/
def createPostCheck (hasContract hasAccount : Bool) (content : String) : Except String Unit :=
  if !hasContract then .error "Contract not initialized"
  else if !hasAccount then .error "Wallet not connected"
  else if jsTrim content = "" then .error "Post content cannot be empty"
  else .ok ()

/-- Validation prefix of the client `addComment` before any transaction is
prepared. -/
def addCommentCheck (hasContract hasAccount : Bool) (content : String) : Except String Unit :=
  if !hasContract then .error "Contract not initialized"
  else if !hasAccount then .error "Wallet not connected"
  else if jsTrim content = "" then .error "Comment content cannot be empty"
  else .ok ()

/-- Optimistic delta of `handleCreatePost`: the placeholder post is prepended
to the view (`[optimisticPost, ...prev]`). -/
def optimisticCreatePost (opt : Post) (view : List Post) : List Post :=
  opt :: view

/-- Revert of `handleCreatePost` on submission failure:
`prev.filter(p => p.id !== optimisticPost.id)`. -/
def revertCreatePost (optId : Nat) (view : List Post) : List Post :=
  view.filter fun p => decide (p.id ≠ optId)

/-- Optimistic delta of `handleToggleLike`: every post whose id matches gets
`likes: post.likes + 1` (the source comment reads "Simplified - just
increment"); the view carries no per-viewer liked flag at all. -/
def optimisticToggleLike (postId : Nat) (view : List Post) : List Post :=
  view.map fun p => if p.id = postId then { p with likes := p.likes + 1 } else p

end Client

/-! ## Concrete states used by witnesses -/

/-- A first actor. -/
def a1 : Addr := 1

/-- A second actor. -/
def a2 : Addr := 2

/-- Storage after one `createPost` from deployment. -/
def s1W : Storage := createPostOk initial a1 "Hello" 100

/-- State `s1W` after actor `a2` likes post 0. -/
def s2W : Storage := likeOk s1W a2 0

/-- Storage after three `createPost` calls sharing one block timestamp. -/
def sThree : Storage :=
  createPostOk (createPostOk (createPostOk initial a1 "zero" 100) a1 "one" 100) a1 "two" 100

/-- State `s1W` after a first comment on post 0. -/
def sc1 : Storage := addCommentOk s1W a2 0 "one" 7

/-- State `sc1` after a second comment on post 0, same timestamp. -/
def sc2 : Storage := addCommentOk sc1 a2 0 "two" 7

/-- State `sc2` after a third comment on post 0, same timestamp. -/
def sc3 : Storage := addCommentOk sc2 a1 0 "three" 7

/-- A client view holding one post, with like count 1, whose single like was
placed by the viewer. -/
def viewLikedW : List Client.Post :=
  [{ id := 0, author := a1, content := "x", likes := 1, timestamp := 50, comments := none }]

/-- A placeholder post as `handleCreatePost` builds it: `Date.now()` id,
empty comment list. -/
def optW : Client.Post :=
  { id := 1700000000000, author := a1, content := "draft", likes := 0,
    timestamp := 1700000000, comments := some [] }

/-- A client view holding one confirmed post. -/
def viewW : List Client.Post :=
  [{ id := 0, author := a2, content := "existing", likes := 0, timestamp := 90,
     comments := none }]

/-! ## Storage well-formedness -/

/-- Facts true of every ledger state the contract can actually be in:
every post's `likes` counts its `true`-valued like records, like records
exist only for assigned post ids, and recorded comment ids are below
`nextCommentId`. -/
def WellFormed (s : Storage) : Prop :=
  (∀ p, (s.posts p).likes = (s.hasLiked p).card) ∧
  (∀ p, s.nextPostId ≤ p → s.hasLiked p = ∅) ∧
  (∀ p i, i ∈ (s.posts p).commentIds → i < s.nextCommentId)

/-! ## Field lemmas and call inversions -/

theorem setLikes_likes (p : Post) (n : Nat) : (p.setLikes n).likes = n := rfl

theorem setLikes_commentIds (p : Post) (n : Nat) :
    (p.setLikes n).commentIds = p.commentIds := rfl

theorem pushCommentId_likes (p : Post) (i : Nat) : (p.pushCommentId i).likes = p.likes := rfl

theorem pushCommentId_commentIds (p : Post) (i : Nat) :
    (p.pushCommentId i).commentIds = p.commentIds ++ [i] := rfl

theorem getComments_ok_iff {s : Storage} {p : Nat} {cs : List Comment} :
    getComments s p = .ok cs ↔ p < s.nextPostId ∧ cs = (s.posts p).commentIds.map s.comments := by
  unfold getComments
  split
  · simp only [Except.ok.injEq]
    constructor
    · intro h
      exact ⟨by assumption, h.symm⟩
    · intro h
      exact h.2.symm
  · simp only [reduceCtorEq, false_iff, not_and]
    intro h
    exact absurd h (by assumption)

theorem createPost_ok {s s' : Storage} {a : Addr} {c : String} {t pid : Nat}
    (h : createPost s a c t = .ok (s', pid)) :
    c ≠ "" ∧ s.nextPostId ≠ U256MAX ∧ s' = createPostOk s a c t ∧ pid = s.nextPostId := by
  unfold createPost at h
  split at h
  · exact absurd h (by simp)
  · split at h
    · exact absurd h (by simp)
    · simp only [Except.ok.injEq, Prod.mk.injEq] at h
      exact ⟨by assumption, by assumption, h.1.symm, h.2.symm⟩

theorem addComment_ok {s s' : Storage} {a : Addr} {p : Nat} {c : String} {t cid : Nat}
    (h : addComment s a p c t = .ok (s', cid)) :
    p < s.nextPostId ∧ c ≠ "" ∧ s.nextCommentId ≠ U256MAX ∧
    s' = addCommentOk s a p c t ∧ cid = s.nextCommentId := by
  unfold addComment at h
  split at h
  · split at h
    · exact absurd h (by simp)
    · split at h
      · exact absurd h (by simp)
      · simp only [Except.ok.injEq, Prod.mk.injEq] at h
        exact ⟨by assumption, by assumption, by assumption, h.1.symm, h.2.symm⟩
  · exact absurd h (by simp)

theorem toggleLike_ok {s s' : Storage} {a : Addr} {p : Nat} {r : Bool × Nat}
    (h : toggleLike s a p = .ok (s', r)) :
    p < s.nextPostId ∧
    ((a ∈ s.hasLiked p ∧ (s.posts p).likes ≠ 0 ∧
        s' = unlikeOk s a p ∧ r = (false, (s.posts p).likes - 1)) ∨
     (a ∉ s.hasLiked p ∧ (s.posts p).likes ≠ U256MAX ∧
        s' = likeOk s a p ∧ r = (true, (s.posts p).likes + 1))) := by
  unfold toggleLike at h
  split at h
  · refine ⟨by assumption, ?_⟩
    split at h
    · split at h
      · exact absurd h (by simp)
      · simp only [Except.ok.injEq, Prod.mk.injEq] at h
        exact Or.inl ⟨by assumption, by assumption, h.1.symm, h.2.symm⟩
    · split at h
      · exact absurd h (by simp)
      · simp only [Except.ok.injEq, Prod.mk.injEq] at h
        exact Or.inr ⟨by assumption, by assumption, h.1.symm, h.2.symm⟩
  · exact absurd h (by simp)

theorem toggleLike_unlike_eq {s : Storage} {a : Addr} {p : Nat}
    (hp : p < s.nextPostId) (hm : a ∈ s.hasLiked p) (h0 : (s.posts p).likes ≠ 0) :
    toggleLike s a p = .ok (unlikeOk s a p, false, (s.posts p).likes - 1) := by
  simp [toggleLike, hp, hm, h0]

theorem toggleLike_like_eq {s : Storage} {a : Addr} {p : Nat}
    (hp : p < s.nextPostId) (hm : a ∉ s.hasLiked p) (hmax : (s.posts p).likes ≠ U256MAX) :
    toggleLike s a p = .ok (likeOk s a p, true, (s.posts p).likes + 1) := by
  simp [toggleLike, hp, hm, hmax]

theorem toggleLike_notFound_eq {s : Storage} {a : Addr} {p : Nat}
    (hp : s.nextPostId ≤ p) : toggleLike s a p = .error .notFound := by
  simp [toggleLike, Nat.not_lt.mpr hp]

/-! ## Well-formedness is preserved -/

theorem wf_initial : WellFormed initial := by
  refine ⟨fun p => ?_, fun p _ => rfl, fun p i hi => ?_⟩
  · simp [initial, defaultPost]
  · simp [initial, defaultPost] at hi

theorem likes_ne_max_of_wf {s : Storage} (h : WellFormed s) (p : Nat) :
    (s.posts p).likes ≠ U256MAX := by
  have h1 := h.1 p
  have h2 : (s.hasLiked p).card ≤ Fintype.card Addr := Finset.card_le_univ _
  have h4 : Fintype.card Addr = 2 ^ 160 := Fintype.card_fin _
  have h3 : (2 : Nat) ^ 160 < U256MAX := by decide
  rw [h4] at h2
  exact Nat.ne_of_lt (lt_of_le_of_lt (h1 ▸ h2) h3)

theorem wf_createPostOk {s : Storage} {a : Addr} {c : String} {t : Nat}
    (h : WellFormed s) : WellFormed (createPostOk s a c t) := by
  obtain ⟨h1, h2, h3⟩ := h
  refine ⟨fun p => ?_, fun p hp => ?_, fun p i hi => ?_⟩
  · show (if p = s.nextPostId then _ else s.posts p).likes = (s.hasLiked p).card
    split
    · have hempty : s.hasLiked p = ∅ := h2 p (by omega)
      rw [hempty, Finset.card_empty]
    · exact h1 p
  · have hp' : s.nextPostId + 1 ≤ p := hp
    exact h2 p (by omega)
  · revert hi
    show i ∈ (if p = s.nextPostId then _ else s.posts p).commentIds → _
    split
    · intro hi
      simp at hi
    · exact h3 p i

theorem wf_addCommentOk {s : Storage} {a : Addr} {q : Nat} {c : String} {t : Nat}
    (h : WellFormed s) : WellFormed (addCommentOk s a q c t) := by
  obtain ⟨h1, h2, h3⟩ := h
  refine ⟨fun p => ?_, fun p hp => h2 p hp, fun p i hi => ?_⟩
  · show (if p = q then (s.posts p).pushCommentId s.nextCommentId else s.posts p).likes
        = (s.hasLiked p).card
    split
    · simpa [pushCommentId_likes] using h1 p
    · exact h1 p
  · revert hi
    show i ∈ (if p = q then (s.posts p).pushCommentId s.nextCommentId else s.posts p).commentIds
        → i < s.nextCommentId + 1
    split
    · intro hi
      rw [pushCommentId_commentIds] at hi
      rcases List.mem_append.mp hi with hold | hnew
      · exact Nat.lt_succ_of_lt (h3 p i hold)
      · simp at hnew
        omega
    · intro hi
      exact Nat.lt_succ_of_lt (h3 p i hi)

theorem wf_unlikeOk {s : Storage} {a : Addr} {q : Nat}
    (h : WellFormed s) (hm : a ∈ s.hasLiked q) : WellFormed (unlikeOk s a q) := by
  obtain ⟨h1, h2, h3⟩ := h
  refine ⟨fun p => ?_, fun p hp => ?_, fun p i hi => ?_⟩
  · show (if p = q then (s.posts p).setLikes ((s.posts p).likes - 1) else s.posts p).likes
        = (if p = q then (s.hasLiked p).erase a else s.hasLiked p).card
    split
    · subst p
      rw [setLikes_likes, Finset.card_erase_of_mem hm, h1 q]
    · exact h1 p
  · show (if p = q then (s.hasLiked p).erase a else s.hasLiked p) = ∅
    split
    · rw [h2 p hp]
      exact Finset.erase_empty a
    · exact h2 p hp
  · revert hi
    show i ∈ (if p = q then (s.posts p).setLikes ((s.posts p).likes - 1)
        else s.posts p).commentIds → _
    split
    · rw [setLikes_commentIds]
      exact h3 p i
    · exact h3 p i

theorem wf_likeOk {s : Storage} {a : Addr} {q : Nat}
    (h : WellFormed s) (hq : q < s.nextPostId) (hm : a ∉ s.hasLiked q) :
    WellFormed (likeOk s a q) := by
  obtain ⟨h1, h2, h3⟩ := h
  refine ⟨fun p => ?_, fun p hp => ?_, fun p i hi => ?_⟩
  · show (if p = q then (s.posts p).setLikes ((s.posts p).likes + 1) else s.posts p).likes
        = (if p = q then insert a (s.hasLiked p) else s.hasLiked p).card
    split
    · subst p
      rw [setLikes_likes, Finset.card_insert_of_not_mem hm, h1 q]
    · exact h1 p
  · show (if p = q then insert a (s.hasLiked p) else s.hasLiked p) = ∅
    split
    · subst p
      have hp' : s.nextPostId ≤ q := hp
      exact absurd hq (Nat.not_lt.mpr hp')
    · exact h2 p hp
  · revert hi
    show i ∈ (if p = q then (s.posts p).setLikes ((s.posts p).likes + 1)
        else s.posts p).commentIds → _
    split
    · rw [setLikes_commentIds]
      exact h3 p i
    · exact h3 p i

theorem reachable_wf {s : Storage} (h : Reachable s) : WellFormed s := by
  induction h with
  | init => exact wf_initial
  | createPost _ heq ih =>
      obtain ⟨_, _, rfl, _⟩ := createPost_ok heq
      exact wf_createPostOk ih
  | addComment _ heq ih =>
      obtain ⟨_, _, _, rfl, _⟩ := addComment_ok heq
      exact wf_addCommentOk ih
  | toggleLike _ heq ih =>
      obtain ⟨hp, hcase⟩ := toggleLike_ok heq
      rcases hcase with ⟨hm, _, rfl, _⟩ | ⟨hm, _, rfl, _⟩
      · exact wf_unlikeOk ih hm
      · exact wf_likeOk ih hp hm

/-! ## More field lemmas -/

theorem createPostOk_nextPostId (s : Storage) (a : Addr) (c : String) (t : Nat) :
    (createPostOk s a c t).nextPostId = s.nextPostId + 1 := rfl

theorem createPostOk_hasLiked (s : Storage) (a : Addr) (c : String) (t : Nat) :
    (createPostOk s a c t).hasLiked = s.hasLiked := rfl

theorem createPostOk_posts_self (s : Storage) (a : Addr) (c : String) (t : Nat) :
    (createPostOk s a c t).posts s.nextPostId =
      { id := s.nextPostId, author := a, content := c, likes := 0,
        timestamp := t, commentIds := [] } := by
  simp [createPostOk]

theorem likeOk_hasLiked_self (s : Storage) (a : Addr) (p : Nat) :
    (likeOk s a p).hasLiked p = insert a (s.hasLiked p) := by
  simp [likeOk]

theorem likeOk_likes_self (s : Storage) (a : Addr) (p : Nat) :
    ((likeOk s a p).posts p).likes = (s.posts p).likes + 1 := by
  simp [likeOk, setLikes_likes]

theorem unlikeOk_hasLiked_self (s : Storage) (a : Addr) (p : Nat) :
    (unlikeOk s a p).hasLiked p = (s.hasLiked p).erase a := by
  simp [unlikeOk]

theorem unlikeOk_likes_self (s : Storage) (a : Addr) (p : Nat) :
    ((unlikeOk s a p).posts p).likes = (s.posts p).likes - 1 := by
  simp [unlikeOk, setLikes_likes]

theorem addCommentOk_posts_self (s : Storage) (a : Addr) (q : Nat) (c : String) (t : Nat) :
    (addCommentOk s a q c t).posts q = (s.posts q).pushCommentId s.nextCommentId := by
  simp [addCommentOk]

theorem addCommentOk_comments_self (s : Storage) (a : Addr) (q : Nat) (c : String) (t : Nat) :
    (addCommentOk s a q c t).comments s.nextCommentId =
      { id := s.nextCommentId, postId := q, author := a, content := c, timestamp := t } := by
  simp [addCommentOk]

theorem addCommentOk_comments_ne (s : Storage) (a : Addr) (q : Nat) (c : String) (t : Nat)
    {j : Nat} (h : j ≠ s.nextCommentId) :
    (addCommentOk s a q c t).comments j = s.comments j := by
  simp [addCommentOk, h]

/-! ## Reachability of the concrete witness states -/

theorem reach_s1W : Reachable s1W :=
  Reachable.createPost Reachable.init
    (show createPost initial a1 "Hello" 100 = .ok (s1W, 0) from rfl)

theorem reach_s2W : Reachable s2W :=
  Reachable.toggleLike reach_s1W
    (show toggleLike s1W a2 0 = .ok (s2W, true, 1) from rfl)

/-! ## Claim theorems -/

/-- C1: In every reachable ledger state, each post's `likes` equals the
number of actors whose like record for that post is `true`, and every
successful `createPost`, `addComment` or `toggleLike` from such a state
preserves this equality. -/
theorem spec_C1_likeCount_invariant (s : Storage) (hs : Reachable s) :
    (∀ p, (s.posts p).likes = (s.hasLiked p).card) ∧
    (∀ (a : Addr) (c : String) (t : Nat) (s' : Storage) (pid : Nat),
      createPost s a c t = .ok (s', pid) →
      ∀ p, (s'.posts p).likes = (s'.hasLiked p).card) ∧
    (∀ (a : Addr) (q : Nat) (c : String) (t : Nat) (s' : Storage) (cid : Nat),
      addComment s a q c t = .ok (s', cid) →
      ∀ p, (s'.posts p).likes = (s'.hasLiked p).card) ∧
    (∀ (a : Addr) (q : Nat) (s' : Storage) (r : Bool × Nat),
      toggleLike s a q = .ok (s', r) →
      ∀ p, (s'.posts p).likes = (s'.hasLiked p).card) := by
  refine ⟨(reachable_wf hs).1, ?_, ?_, ?_⟩
  · intro a c t s' pid h
    exact (reachable_wf (Reachable.createPost hs h)).1
  · intro a q c t s' cid h
    exact (reachable_wf (Reachable.addComment hs h)).1
  · intro a q s' r h
    exact (reachable_wf (Reachable.toggleLike hs h)).1

/-- Witness for C1 at the concrete reachable state `s2W` (one post, one like)
and post 0. -/
theorem spec_C1_witness : (s2W.posts 0).likes = (s2W.hasLiked 0).card :=
  (spec_C1_likeCount_invariant s2W reach_s2W).1 0

/-- C4: From any reachable state, `toggleLike` reverts with the not-found
error exactly when the post id was never assigned; on a known id it succeeds
and reports the post's new liked flag and like count; and on a freshly
created post any actor's first toggle yields `(true, 1)` and the immediate
second toggle `(false, 0)`. -/
theorem spec_C4_toggleLike_contract (s : Storage) (hs : Reachable s) :
    (∀ (a : Addr) (p : Nat), toggleLike s a p = .error .notFound ↔ s.nextPostId ≤ p) ∧
    (∀ (a : Addr) (p : Nat), p < s.nextPostId →
      ∃ s' liked cnt, toggleLike s a p = .ok (s', liked, cnt) ∧
        (liked = true ↔ a ∈ s'.hasLiked p) ∧ cnt = (s'.posts p).likes) ∧
    (∀ (a : Addr) (c : String) (t : Nat) (s' : Storage) (pid : Nat),
      createPost s a c t = .ok (s', pid) →
      ∀ u : Addr, ∃ s₂, toggleLike s' u pid = .ok (s₂, true, 1) ∧
        ∃ s₃, toggleLike s₂ u pid = .ok (s₃, false, 0)) := by
  have hwf := reachable_wf hs
  refine ⟨fun a p => ?_, fun a p hlt => ?_, fun a c t s' pid h u => ?_⟩
  · constructor
    · intro h
      rcases Nat.lt_or_ge p s.nextPostId with hlt | hge
      · exfalso
        by_cases hm : a ∈ s.hasLiked p
        · have h0 : (s.posts p).likes ≠ 0 := by
            have h1 := hwf.1 p
            have hpos : 0 < (s.hasLiked p).card := Finset.card_pos.mpr ⟨a, hm⟩
            omega
          rw [toggleLike_unlike_eq hlt hm h0] at h
          exact absurd h (by simp)
        · rw [toggleLike_like_eq hlt hm (likes_ne_max_of_wf hwf p)] at h
          exact absurd h (by simp)
      · exact hge
    · exact toggleLike_notFound_eq
  · by_cases hm : a ∈ s.hasLiked p
    · have h0 : (s.posts p).likes ≠ 0 := by
        have h1 := hwf.1 p
        have hpos : 0 < (s.hasLiked p).card := Finset.card_pos.mpr ⟨a, hm⟩
        omega
      refine ⟨unlikeOk s a p, false, (s.posts p).likes - 1,
        toggleLike_unlike_eq hlt hm h0, ?_, ?_⟩
      · rw [unlikeOk_hasLiked_self]
        simp
      · rw [unlikeOk_likes_self]
    · refine ⟨likeOk s a p, true, (s.posts p).likes + 1,
        toggleLike_like_eq hlt hm (likes_ne_max_of_wf hwf p), ?_, ?_⟩
      · rw [likeOk_hasLiked_self]
        simp
      · rw [likeOk_likes_self]
  · obtain ⟨_, _, rfl, rfl⟩ := createPost_ok h
    have hempty : s.hasLiked s.nextPostId = ∅ := hwf.2.1 s.nextPostId (Nat.le_refl _)
    have hlikes0 : ((createPostOk s a c t).posts s.nextPostId).likes = 0 := by
      rw [createPostOk_posts_self]
    have hp1 : s.nextPostId < (createPostOk s a c t).nextPostId := by
      rw [createPostOk_nextPostId]
      omega
    have hm1 : u ∉ (createPostOk s a c t).hasLiked s.nextPostId := by
      rw [createPostOk_hasLiked, hempty]
      simp
    have hmax1 : ((createPostOk s a c t).posts s.nextPostId).likes ≠ U256MAX := by
      rw [hlikes0]
      decide
    have e1 := toggleLike_like_eq hp1 hm1 hmax1
    rw [hlikes0] at e1
    refine ⟨likeOk (createPostOk s a c t) u s.nextPostId, e1, ?_⟩
    have hlikes1 :
        ((likeOk (createPostOk s a c t) u s.nextPostId).posts s.nextPostId).likes = 1 := by
      rw [likeOk_likes_self, hlikes0]
    have hm2 : u ∈ (likeOk (createPostOk s a c t) u s.nextPostId).hasLiked s.nextPostId := by
      rw [likeOk_hasLiked_self]
      exact Finset.mem_insert_self u _
    have h02 :
        ((likeOk (createPostOk s a c t) u s.nextPostId).posts s.nextPostId).likes ≠ 0 := by
      rw [hlikes1]
      decide
    have e2 := toggleLike_unlike_eq (s := likeOk (createPostOk s a c t) u s.nextPostId)
      hp1 hm2 h02
    rw [hlikes1] at e2
    exact ⟨unlikeOk (likeOk (createPostOk s a c t) u s.nextPostId) u s.nextPostId, e2⟩

/-- Witness for C4: from the deployed state (no posts), toggling post 5
reverts with the not-found error. -/
theorem spec_C4_witness : toggleLike initial a1 5 = Except.error Error.notFound :=
  ((spec_C4_toggleLike_contract initial Reachable.init).1 a1 5).mpr (Nat.zero_le 5)

/-- C6: Toggling the same post twice in a row by the same actor succeeds and
brings both the actor's like record and the post's like count back to their
values before the pair of calls (for any storage whose like count is a
`uint256` value, in particular any reachable one). -/
theorem spec_C6_double_toggle (s : Storage) (a : Addr) (p : Nat) (s₁ : Storage)
    (r₁ : Bool × Nat) (hle : (s.posts p).likes ≤ U256MAX)
    (h₁ : toggleLike s a p = .ok (s₁, r₁)) :
    ∃ s₂ r₂, toggleLike s₁ a p = .ok (s₂, r₂) ∧
      s₂.hasLiked p = s.hasLiked p ∧ (s₂.posts p).likes = (s.posts p).likes := by
  obtain ⟨hp, hcase⟩ := toggleLike_ok h₁
  have hU : 0 < U256MAX := by decide
  rcases hcase with ⟨hm, h0, rfl, _⟩ | ⟨hm, hmax, rfl, _⟩
  · have hp1 : p < (unlikeOk s a p).nextPostId := hp
    have hm1 : a ∉ (unlikeOk s a p).hasLiked p := by
      rw [unlikeOk_hasLiked_self]
      exact Finset.not_mem_erase a _
    have hmax1 : ((unlikeOk s a p).posts p).likes ≠ U256MAX := by
      rw [unlikeOk_likes_self]
      omega
    refine ⟨likeOk (unlikeOk s a p) a p, _, toggleLike_like_eq hp1 hm1 hmax1, ?_, ?_⟩
    · rw [likeOk_hasLiked_self, unlikeOk_hasLiked_self, Finset.insert_erase hm]
    · rw [likeOk_likes_self, unlikeOk_likes_self]
      omega
  · have hp1 : p < (likeOk s a p).nextPostId := hp
    have hm1 : a ∈ (likeOk s a p).hasLiked p := by
      rw [likeOk_hasLiked_self]
      exact Finset.mem_insert_self a _
    have h01 : ((likeOk s a p).posts p).likes ≠ 0 := by
      rw [likeOk_likes_self]
      omega
    refine ⟨unlikeOk (likeOk s a p) a p, _, toggleLike_unlike_eq hp1 hm1 h01, ?_, ?_⟩
    · rw [unlikeOk_hasLiked_self, likeOk_hasLiked_self, Finset.erase_insert hm]
    · rw [unlikeOk_likes_self, likeOk_likes_self]
      omega

/-- Witness for C6 at the concrete state `s1W`: actor `a2` has toggled post 0
once (reaching `s2W`); the second toggle restores the like record and count. -/
theorem spec_C6_witness :
    ∃ s₂ r₂, toggleLike s2W a2 0 = .ok (s₂, r₂) ∧
      s₂.hasLiked 0 = s1W.hasLiked 0 ∧ (s₂.posts 0).likes = (s1W.posts 0).likes :=
  spec_C6_double_toggle s1W a2 0 s2W (true, 1) (by decide) rfl

/-- C7: After a successful `createPost` by author `a` with content `c`,
reading the returned post id yields a `Post` with that author and content,
zero likes and no comment ids. -/
theorem spec_C7_createPost_getPost (s : Storage) (a : Addr) (c : String) (t : Nat)
    (s' : Storage) (pid : Nat) (h : createPost s a c t = .ok (s', pid)) :
    getPost s' pid =
      { id := pid, author := a, content := c, likes := 0, timestamp := t,
        commentIds := [] } := by
  obtain ⟨_, _, rfl, rfl⟩ := createPost_ok h
  exact createPostOk_posts_self s a c t

/-- Witness for C7: the first post created from deployment. -/
theorem spec_C7_witness :
    getPost s1W 0 =
      { id := 0, author := a1, content := "Hello", likes := 0, timestamp := 100,
        commentIds := [] } :=
  spec_C7_createPost_getPost initial a1 "Hello" 100 s1W 0 rfl

/-- One `addComment` step appends exactly one comment, in last position, to
what `getComments` returns for the target post (given that the post's
recorded comment ids are below `nextCommentId`, which holds in every
reachable state). -/
theorem getComments_addComment_step {s s' : Storage} {a : Addr} {p : Nat} {c : String}
    {t i : Nat} {cs : List Comment}
    (h : addComment s a p c t = .ok (s', i))
    (hbound : ∀ j ∈ (s.posts p).commentIds, j < s.nextCommentId)
    (hcs : getComments s p = .ok cs) :
    getComments s' p = .ok (cs ++ [⟨i, p, a, c, t⟩]) := by
  obtain ⟨hp, hc, hmax, rfl, rfl⟩ := addComment_ok h
  obtain ⟨hplt, hcs'⟩ := getComments_ok_iff.mp hcs
  apply getComments_ok_iff.mpr
  refine ⟨hplt, ?_⟩
  rw [addCommentOk_posts_self, pushCommentId_commentIds, List.map_append]
  congr 1
  · rw [hcs']
    apply List.map_congr_left
    intro j hj
    exact (addCommentOk_comments_ne _ _ _ _ _ (Nat.ne_of_lt (hbound j hj))).symm
  · rw [List.map_cons, List.map_nil, addCommentOk_comments_self]

/-- C8: If three comments are added to an existing post in some order, a
subsequent `getComments` returns the previously returned comments followed
by exactly those three, in the order they were added -- whatever their
contents, authors and (possibly colliding) timestamps. -/
theorem spec_C8_comment_order (s : Storage) (p : Nat) (hs : Reachable s)
    (cs : List Comment) (h0 : getComments s p = .ok cs)
    (a₁ a₂ a₃ : Addr) (c₁ c₂ c₃ : String) (t₁ t₂ t₃ : Nat)
    (s₁ s₂ s₃ : Storage) (i₁ i₂ i₃ : Nat)
    (h₁ : addComment s a₁ p c₁ t₁ = .ok (s₁, i₁))
    (h₂ : addComment s₁ a₂ p c₂ t₂ = .ok (s₂, i₂))
    (h₃ : addComment s₂ a₃ p c₃ t₃ = .ok (s₃, i₃)) :
    getComments s₃ p = .ok (cs ++
      [⟨i₁, p, a₁, c₁, t₁⟩, ⟨i₂, p, a₂, c₂, t₂⟩, ⟨i₃, p, a₃, c₃, t₃⟩]) := by
  have hr1 : Reachable s₁ := Reachable.addComment hs h₁
  have hr2 : Reachable s₂ := Reachable.addComment hr1 h₂
  have g1 := getComments_addComment_step h₁ ((reachable_wf hs).2.2 p) h0
  have g2 := getComments_addComment_step h₂ ((reachable_wf hr1).2.2 p) g1
  have g3 := getComments_addComment_step h₃ ((reachable_wf hr2).2.2 p) g2
  simpa [List.append_assoc] using g3

/-- Witness for C8: three comments with one shared timestamp added to the
post of `s1W`, read back in insertion order. -/
theorem spec_C8_witness :
    getComments sc3 0 = .ok
      [⟨0, 0, a2, "one", 7⟩, ⟨1, 0, a2, "two", 7⟩, ⟨2, 0, a1, "three", 7⟩] := by
  have h := spec_C8_comment_order s1W 0 reach_s1W [] rfl a2 a2 a1 "one" "two" "three"
    7 7 7 sc1 sc2 sc3 0 1 2 rfl rfl rfl
  simpa using h

/-- C2 fails on the code: on a ledger holding exactly one post -- the first
ever created, with id 0 and content `"Hello"` -- the client's `getAllPosts`
returns a single entry that is the zero-valued record read at the unassigned
id 1 (its loop runs over ids `1 .. getTotalPosts()` while the contract
assigns ids from 0), so the real post is absent and an entry the ledger
never assigned is present. -/
theorem spec_C2_getAllPosts_failing_input :
    getTotalPosts s1W = 1 ∧
    (s1W.posts 0).content = "Hello" ∧
    Client.getAllPosts s1W =
      [{ id := 0, author := 0, content := "", likes := 0, timestamp := 0,
         comments := none }] := by
  refine ⟨rfl, rfl, ?_⟩
  show List.mergeSort
      [{ id := 0, author := 0, content := "", likes := 0, timestamp := 0,
         comments := none }] Client.byTimestampDesc = _
  exact List.mergeSort_singleton _

/-- C3 fails on the code: on a view whose single post the viewer has already
liked (like count 1), the optimistic update of `handleToggleLike` raises the
count to 2 -- a blind increment -- instead of flipping the viewer's like off
and lowering the count to 0; the client view does not even carry a per-viewer
liked flag. -/
theorem spec_C3_optimistic_like_failing_input :
    Client.optimisticToggleLike 0 viewLikedW =
      [{ id := 0, author := a1, content := "x", likes := 2, timestamp := 50,
         comments := none }] := by
  decide

/-- C5 counterexample: after three posts created in one block (equal
`createdAt`), the client presents the two fetched equal-timestamp posts in
ascending id order (id 1 before id 2), so the presented sequence is not
ordered by the claimed timestamp-descending-then-id-descending relation. -/
theorem spec_C5_counterexample :
    (Client.getAllPosts sThree).map (fun q => (q.id, q.timestamp)) =
      [(1, 100), (2, 100), (0, 0)] ∧
    ¬ (Client.getAllPosts sThree).Pairwise
        (fun x y => y.timestamp < x.timestamp ∨
          (y.timestamp = x.timestamp ∧ y.id < x.id)) := by
  have he : Client.getAllPosts sThree =
      [{ id := 1, author := a1, content := "one", likes := 0, timestamp := 100,
         comments := none },
       { id := 2, author := a1, content := "two", likes := 0, timestamp := 100,
         comments := none },
       { id := 0, author := 0, content := "", likes := 0, timestamp := 0,
         comments := none }] := by
    show List.mergeSort
        [{ id := 1, author := a1, content := "one", likes := 0, timestamp := 100,
           comments := none },
         { id := 2, author := a1, content := "two", likes := 0, timestamp := 100,
           comments := none },
         { id := 0, author := 0, content := "", likes := 0, timestamp := 0,
           comments := none }] Client.byTimestampDesc = _
    exact List.mergeSort_of_sorted (by decide)
  rw [he]
  exact ⟨rfl, by decide⟩

/-- C5 amended: the sequence the client presents is sorted by `createdAt`
descending (timestamps never increase along it); no id tie-break is applied
to posts with equal `createdAt`. -/
theorem spec_C5_amended_sorted_by_timestamp (s : Storage) :
    (Client.getAllPosts s).Pairwise (fun x y => y.timestamp ≤ x.timestamp) := by
  unfold Client.getAllPosts
  split
  · simp
  · have h := @List.sorted_mergeSort Client.Post Client.byTimestampDesc
      (fun a b c hab hbc => by
        simp only [Client.byTimestampDesc, decide_eq_true_eq] at *
        omega)
      (fun a b => by
        simp only [Client.byTimestampDesc, Bool.or_eq_true, decide_eq_true_eq]
        omega)
      (((List.range (getTotalPosts s)).map fun k => Client.getPost s (k + 1)).filterMap id)
    exact h.imp fun hxy => of_decide_eq_true hxy

/-- C9: When a `createPost` submission fails, the revert of
`handleCreatePost` removes exactly the optimistic placeholder from the view
it was prepended to: provided no existing post carries the placeholder id
(the placeholder must never collide with a ledger id), the resulting view --
and in particular its sequence of post ids -- is the one from before the
action. -/
theorem spec_C9_createPost_revert (opt : Client.Post) (view : List Client.Post)
    (hfresh : ∀ q ∈ view, q.id ≠ opt.id) :
    Client.revertCreatePost opt.id (Client.optimisticCreatePost opt view) = view ∧
    (Client.revertCreatePost opt.id (Client.optimisticCreatePost opt view)).map
      (fun q => q.id) = view.map fun q => q.id := by
  have h : Client.revertCreatePost opt.id (Client.optimisticCreatePost opt view) = view := by
    unfold Client.revertCreatePost Client.optimisticCreatePost
    rw [List.filter_cons]
    have hopt : (decide (opt.id ≠ opt.id)) = false := by simp
    rw [hopt]
    simp only [Bool.false_eq_true, if_false]
    exact List.filter_eq_self.mpr fun q hq => by simpa using hfresh q hq
  exact ⟨h, by rw [h]⟩

/-- Witness for C9: a fresh placeholder prepended to a one-post view and
reverted. -/
theorem spec_C9_witness :
    Client.revertCreatePost optW.id (Client.optimisticCreatePost optW viewW) = viewW ∧
    (Client.revertCreatePost optW.id (Client.optimisticCreatePost optW viewW)).map
      (fun q => q.id) = viewW.map fun q => q.id :=
  spec_C9_createPost_revert optW viewW (by decide)

/-- C10: The client-side and ledger-side emptiness checks disagree on the
one-space string: the Sync Engine's `createPost` and `addComment` reject it
before submission (its trimmed form is empty) while the ledger's `createPost`
and `addComment` accept and store it (its byte length is positive); and the
client's predicate is strictly stronger, since any content it accepts
(non-empty after trimming) is non-empty and so passes the ledger check. -/
theorem spec_C10_validation_mismatch :
    Client.createPostCheck true true " " = .error "Post content cannot be empty" ∧
    Client.addCommentCheck true true " " = .error "Comment content cannot be empty" ∧
    (∃ s' pid, createPost initial a1 " " 0 = .ok (s', pid) ∧
      (s'.posts pid).content = " ") ∧
    (∃ s' cid, addComment s1W a1 0 " " 0 = .ok (s', cid) ∧
      (s'.comments cid).content = " ") ∧
    (∀ c : String, jsTrim c ≠ "" → c ≠ "") := by
  refine ⟨rfl, rfl, ⟨createPostOk initial a1 " " 0, 0, rfl, rfl⟩,
    ⟨addCommentOk s1W a1 0 " " 0, 0, rfl, rfl⟩, ?_⟩
  intro c h hc
  apply h
  rw [hc]
  rfl

/-- Witness for C10's universal part at the concrete content `"a"`. -/
theorem spec_C10_witness : ("a" : String) ≠ "" :=
  spec_C10_validation_mismatch.2.2.2.2 "a" (by decide)

end AnonBoard
